import Mathlib

/-! go-vocchain: API error classification and account URLs

A shallow embedding of `api/errors.go` (the chain-code table `respErrFormatter`,
the general table `errorFormatter` and the classifier `isTemporary`) and of the
URL operations exercised by `accounts/url_test.go`.

Go strings that are only compared for equality (chain codes, map keys) are Lean
`String`s.  Go `int` is `Int`.  A Go function that can panic returns `Option`,
with `none` standing for the panic.
-/

namespace Vocchain

namespace httperror

/-- The struct `httperror.Info`.  Its three fields are fixed by the positional
literals of `api/errors.go` (`{500, "VOC00", "Voc API Error"}`) and by the
selector `info.ChainCode`. -/
structure Info where
  HTTPStatus : Int
  ChainCode : String
  Message : String
  deriving DecidableEq, Repr

/-- The struct `httperror.Response`, of which `isTemporary` reads only the
embedded `Info` (`actionErr.Info`). -/
structure Response where
  Info : httperror.Info
  deriving DecidableEq, Repr

end httperror

/-- The dynamic value held by an `interface{}` of an error's data map, as far as
the type assertion `.([]httperror.Response)` tells values apart. -/
inductive Value where
  /-- the nil interface, which is also what reading an absent key yields -/
  | nil
  /-- a value of dynamic type `[]httperror.Response` -/
  | responses (rs : List httperror.Response)
  /-- a value of any other dynamic type -/
  | other
  deriving DecidableEq, Repr

/-- A Go `error` as `isTemporary` can observe it: the nil error, an error that
carries no data, or an error wrapped with a data map. -/
inductive GoError where
  | nil
  | plain
  | withData (data : List (String × Value))
  deriving DecidableEq, Repr

/-- Reading a Go `map[string]interface{}` at a key: the stored value, or the
nil interface when the key is absent (also on the nil map). -/
def mapIndex : List (String × Value) → String → Value
  | [], _ => Value.nil
  | (k, v) :: rest, key => if k = key then v else mapIndex rest key

namespace errors

/-- Modelled from the spec: `errors.Data` (package `errors` is not among the
sources) returns the data map an error carries; a nil error and an error
without data give the nil map. -/
def Data : GoError → List (String × Value)
  | GoError.nil => []
  | GoError.plain => []
  | GoError.withData d => d

end errors

namespace api

open httperror

/-- The function `isTemporary` of `api/errors.go`.  The `switch` on
`info.ChainCode` is the chain of comparisons; the single-valued type assertion
panics (`none`) unless the value under `"actions"` is a `[]httperror.Response`;
`temp && isTemporary(..)` evaluates its right operand only while `temp` holds. -/
def isTemporary (info : Info) (err : GoError) : Option Bool :=
  if info.ChainCode = "VOC00" then some true
  else if info.ChainCode = "VOC01" then some true
  else if info.ChainCode = "VOC61" then some true
  else if info.ChainCode = "VOC06" then
    match h : mapIndex (errors.Data err) "actions" with
    | Value.responses errs =>
      errs.foldlM
        (fun temp actionErr =>
          if temp then
            have _hlt : (if GoError.nil = GoError.nil then 0 else 1) <
                (if err = GoError.nil then 0 else 1) := by
              cases err <;> simp_all [errors.Data, mapIndex]
            isTemporary actionErr.Info GoError.nil
          else some false)
        true
    | _ => none
  else some false
termination_by (if err = GoError.nil then 0 else 1)

/-- The body of the `for` loop of `isTemporary`. -/
def actionStep (temp : Bool) (actionErr : Response) : Option Bool :=
  if temp then isTemporary actionErr.Info GoError.nil else some false

/-- The sentinel error values that key the two tables of `api/errors.go`.  They
are package-level variables of the named packages (`signers.ErrBadQuorum` is
`signers_ErrBadQuorum`; unqualified names belong to package `api`), each taken
to be an error value of its own, so that every key of a map literal is a
separate entry. -/
inductive ErrKey where
  | ErrDefault
  | signers_ErrBadQuorum
  | signers_ErrBadXPub
  | signers_ErrNoXPubs
  | signers_ErrDupeXPub
  | ErrCompileContract
  | ErrInstContract
  | account_ErrInsufficient
  | account_ErrImmature
  | account_ErrReserved
  | account_ErrMatchUTXO
  | ErrBadActionType
  | ErrBadAction
  | ErrBadActionConstruction
  | txbuilder_ErrMissingFields
  | txbuilder_ErrBadAmount
  | account_ErrFindAccount
  | asset_ErrFindAsset
  | txbuilder_ErrBadContractArgType
  | txbuilder_ErrOrphanTx
  | txbuilder_ErrExtTxFee
  | txbuilder_ErrNoGasInput
  | validation_ErrTxVersion
  | validation_ErrWrongTransactionSize
  | validation_ErrBadTimeRange
  | validation_ErrNotStandardTx
  | validation_ErrWrongCoinbaseTransaction
  | validation_ErrWrongCoinbaseAsset
  | validation_ErrCoinbaseArbitraryOversize
  | validation_ErrEmptyResults
  | validation_ErrMismatchedAssetID
  | validation_ErrMismatchedPosition
  | validation_ErrMismatchedReference
  | validation_ErrMismatchedValue
  | validation_ErrMissingField
  | validation_ErrNoSource
  | validation_ErrOverflow
  | validation_ErrPosition
  | validation_ErrUnbalanced
  | validation_ErrOverGasCredit
  | validation_ErrGasCalculate
  | vm_ErrAltStackUnderflow
  | vm_ErrBadValue
  | vm_ErrContext
  | vm_ErrDataStackUnderflow
  | vm_ErrDisallowedOpcode
  | vm_ErrDivZero
  | vm_ErrFalseVMResult
  | vm_ErrLongProgram
  | vm_ErrRange
  | vm_ErrReturn
  | vm_ErrRunLimitExceeded
  | vm_ErrShortProgram
  | vm_ErrToken
  | vm_ErrUnexpected
  | vm_ErrUnsupportedVM
  | vm_ErrVerifyFailed
  | pseudohsm_ErrDuplicateKeyAlias
  | pseudohsm_ErrLoadKey
  | pseudohsm_ErrDecrypt
  | context_DeadlineExceeded
  | httpjson_ErrBadRequest
  | rpc_ErrWrongNetwork
  | errNotAuthenticated
  deriving DecidableEq, Repr

/-- The map `respErrFormatter` of `api/errors.go`, entry by entry in source
order. -/
def respErrFormatter : List (ErrKey × Info) :=
  [ (ErrKey.ErrDefault, ⟨500, "VOC00", "Voc API Error"⟩),
    (ErrKey.signers_ErrBadQuorum, ⟨400, "VOC00", "Quorum must be greater than or equal to 1, and must be less than or equal to the length of xpubs"⟩),
    (ErrKey.signers_ErrBadXPub, ⟨400, "VOC01", "Invalid xpub format"⟩),
    (ErrKey.signers_ErrNoXPubs, ⟨400, "VOC02", "At least one xpub is required"⟩),
    (ErrKey.signers_ErrDupeXPub, ⟨400, "VOC03", "Root XPubs cannot contain the same key more than once"⟩),
    (ErrKey.ErrCompileContract, ⟨400, "VOC00", "Compile contract failed"⟩),
    (ErrKey.ErrInstContract, ⟨400, "VOC01", "Instantiate contract failed"⟩),
    (ErrKey.account_ErrInsufficient, ⟨400, "VOC00", "Funds of account are insufficient"⟩),
    (ErrKey.account_ErrImmature, ⟨400, "VOC01", "Available funds of account are immature"⟩),
    (ErrKey.account_ErrReserved, ⟨400, "VOC02", "Available UTXOs of account have been reserved"⟩),
    (ErrKey.account_ErrMatchUTXO, ⟨400, "VOC03", "UTXO with given hash not found"⟩),
    (ErrKey.ErrBadActionType, ⟨400, "VOC04", "Invalid action type"⟩),
    (ErrKey.ErrBadAction, ⟨400, "VOC05", "Invalid action object"⟩),
    (ErrKey.ErrBadActionConstruction, ⟨400, "VOC06", "Invalid action construction"⟩),
    (ErrKey.txbuilder_ErrMissingFields, ⟨400, "VOC07", "One or more fields are missing"⟩),
    (ErrKey.txbuilder_ErrBadAmount, ⟨400, "VOC08", "Invalid asset amount"⟩),
    (ErrKey.account_ErrFindAccount, ⟨400, "VOC09", "Account not found"⟩),
    (ErrKey.asset_ErrFindAsset, ⟨400, "VOC10", "Asset not found"⟩),
    (ErrKey.txbuilder_ErrBadContractArgType, ⟨400, "VOC11", "Invalid contract argument type"⟩),
    (ErrKey.txbuilder_ErrOrphanTx, ⟨400, "VOC12", "Transaction input UTXO not found"⟩),
    (ErrKey.txbuilder_ErrExtTxFee, ⟨400, "VOC713", "Transaction fee exceeded max limit"⟩),
    (ErrKey.txbuilder_ErrNoGasInput, ⟨400, "VOC714", "Transaction has no gas input"⟩),
    (ErrKey.validation_ErrTxVersion, ⟨400, "VOC730", "Invalid transaction version"⟩),
    (ErrKey.validation_ErrWrongTransactionSize, ⟨400, "VOC731", "Invalid transaction size"⟩),
    (ErrKey.validation_ErrBadTimeRange, ⟨400, "VOC732", "Invalid transaction time range"⟩),
    (ErrKey.validation_ErrNotStandardTx, ⟨400, "VOC733", "Not standard transaction"⟩),
    (ErrKey.validation_ErrWrongCoinbaseTransaction, ⟨400, "VOC734", "Invalid coinbase transaction"⟩),
    (ErrKey.validation_ErrWrongCoinbaseAsset, ⟨400, "VOC735", "Invalid coinbase assetID"⟩),
    (ErrKey.validation_ErrCoinbaseArbitraryOversize, ⟨400, "VOC736", "Invalid coinbase arbitrary size"⟩),
    (ErrKey.validation_ErrEmptyResults, ⟨400, "VOC737", "No results in the transaction"⟩),
    (ErrKey.validation_ErrMismatchedAssetID, ⟨400, "VOC738", "Mismatched assetID"⟩),
    (ErrKey.validation_ErrMismatchedPosition, ⟨400, "VOC739", "Mismatched value source/dest position"⟩),
    (ErrKey.validation_ErrMismatchedReference, ⟨400, "VOC740", "Mismatched reference"⟩),
    (ErrKey.validation_ErrMismatchedValue, ⟨400, "VOC741", "Mismatched value"⟩),
    (ErrKey.validation_ErrMissingField, ⟨400, "VOC742", "Missing required field"⟩),
    (ErrKey.validation_ErrNoSource, ⟨400, "VOC743", "No source for value"⟩),
    (ErrKey.validation_ErrOverflow, ⟨400, "VOC744", "Arithmetic overflow/underflow"⟩),
    (ErrKey.validation_ErrPosition, ⟨400, "VOC745", "Invalid source or destination position"⟩),
    (ErrKey.validation_ErrUnbalanced, ⟨400, "VOC746", "Unbalanced asset amount between input and output"⟩),
    (ErrKey.validation_ErrOverGasCredit, ⟨400, "VOC747", "Gas credit has been spent"⟩),
    (ErrKey.validation_ErrGasCalculate, ⟨400, "VOC748", "Gas usage calculate got a math error"⟩),
    (ErrKey.vm_ErrAltStackUnderflow, ⟨400, "VOC760", "Alt stack underflow"⟩),
    (ErrKey.vm_ErrBadValue, ⟨400, "VOC761", "Bad value"⟩),
    (ErrKey.vm_ErrContext, ⟨400, "VOC762", "Wrong context"⟩),
    (ErrKey.vm_ErrDataStackUnderflow, ⟨400, "VOC763", "Data stack underflow"⟩),
    (ErrKey.vm_ErrDisallowedOpcode, ⟨400, "VOC764", "Disallowed opcode"⟩),
    (ErrKey.vm_ErrDivZero, ⟨400, "VOC765", "Division by zero"⟩),
    (ErrKey.vm_ErrFalseVMResult, ⟨400, "VOC766", "False result for executing VM"⟩),
    (ErrKey.vm_ErrLongProgram, ⟨400, "VOC767", "Program size exceeds max int32"⟩),
    (ErrKey.vm_ErrRange, ⟨400, "VOC768", "Arithmetic range error"⟩),
    (ErrKey.vm_ErrReturn, ⟨400, "VOC769", "RETURN executed"⟩),
    (ErrKey.vm_ErrRunLimitExceeded, ⟨400, "VOC770", "Run limit exceeded because the VOC Fee is insufficient"⟩),
    (ErrKey.vm_ErrShortProgram, ⟨400, "VOC771", "Unexpected end of program"⟩),
    (ErrKey.vm_ErrToken, ⟨400, "VOC772", "Unrecognized token"⟩),
    (ErrKey.vm_ErrUnexpected, ⟨400, "VOC773", "Unexpected error"⟩),
    (ErrKey.vm_ErrUnsupportedVM, ⟨400, "VOC774", "Unsupported VM because the version of VM is mismatched"⟩),
    (ErrKey.vm_ErrVerifyFailed, ⟨400, "VOC775", "VERIFY failed"⟩),
    (ErrKey.pseudohsm_ErrDuplicateKeyAlias, ⟨400, "VOC800", "Key Alias already exists"⟩),
    (ErrKey.pseudohsm_ErrLoadKey, ⟨400, "VOC801", "Key not found or wrong password"⟩),
    (ErrKey.pseudohsm_ErrDecrypt, ⟨400, "VOC802", "Could not decrypt key with given passphrase"⟩) ]

/-- Reading `respErrFormatter` at a key. -/
def respErrInfo (k : ErrKey) : Option Info :=
  respErrFormatter.lookup k

/-- The keys of the "Validation error (73x ~ 75x)" block of `respErrFormatter`. -/
def validationErrors : List ErrKey :=
  [ ErrKey.validation_ErrTxVersion,
    ErrKey.validation_ErrWrongTransactionSize,
    ErrKey.validation_ErrBadTimeRange,
    ErrKey.validation_ErrNotStandardTx,
    ErrKey.validation_ErrWrongCoinbaseTransaction,
    ErrKey.validation_ErrWrongCoinbaseAsset,
    ErrKey.validation_ErrCoinbaseArbitraryOversize,
    ErrKey.validation_ErrEmptyResults,
    ErrKey.validation_ErrMismatchedAssetID,
    ErrKey.validation_ErrMismatchedPosition,
    ErrKey.validation_ErrMismatchedReference,
    ErrKey.validation_ErrMismatchedValue,
    ErrKey.validation_ErrMissingField,
    ErrKey.validation_ErrNoSource,
    ErrKey.validation_ErrOverflow,
    ErrKey.validation_ErrPosition,
    ErrKey.validation_ErrUnbalanced,
    ErrKey.validation_ErrOverGasCredit,
    ErrKey.validation_ErrGasCalculate ]

/-- The keys of the "VM error (76x ~ 78x)" block of `respErrFormatter`. -/
def vmErrors : List ErrKey :=
  [ ErrKey.vm_ErrAltStackUnderflow,
    ErrKey.vm_ErrBadValue,
    ErrKey.vm_ErrContext,
    ErrKey.vm_ErrDataStackUnderflow,
    ErrKey.vm_ErrDisallowedOpcode,
    ErrKey.vm_ErrDivZero,
    ErrKey.vm_ErrFalseVMResult,
    ErrKey.vm_ErrLongProgram,
    ErrKey.vm_ErrRange,
    ErrKey.vm_ErrReturn,
    ErrKey.vm_ErrRunLimitExceeded,
    ErrKey.vm_ErrShortProgram,
    ErrKey.vm_ErrToken,
    ErrKey.vm_ErrUnexpected,
    ErrKey.vm_ErrUnsupportedVM,
    ErrKey.vm_ErrVerifyFailed ]

namespace errorFormatter

/-- The field `Default` of the `httperror.Formatter` literal `errorFormatter`. -/
def Default : Info := ⟨500, "VOC000", "Voc API Error"⟩

/-- The field `Errors` of the `httperror.Formatter` literal `errorFormatter`. -/
def Errors : List (ErrKey × Info) :=
  [ (ErrKey.context_DeadlineExceeded, ⟨408, "VOC001", "Request timed out"⟩),
    (ErrKey.httpjson_ErrBadRequest, ⟨400, "VOC002", "Invalid request body"⟩),
    (ErrKey.rpc_ErrWrongNetwork, ⟨502, "VOC103", "A peer core is operating on a different blockchain network"⟩),
    (ErrKey.errNotAuthenticated, ⟨401, "VOC860", "Request could not be authenticated"⟩) ]

end errorFormatter

end api

namespace accounts

/-- The bytes of an ASCII string literal: a Go string is a sequence of bytes,
here a list of byte values. -/
def ascii (s : String) : List Nat :=
  s.data.map Char.toNat

/-- The separator `"://"` between scheme and path. -/
def sep : List Nat := [58, 47, 47]

/-- The struct `URL` of package `accounts`, with the fields the tests read and
write (`URL{Scheme: "https", Path: "voc-core.org"}`). -/
structure URL where
  Scheme : List Nat
  Path : List Nat
  deriving DecidableEq, Repr

/-- Cutting a string at the first occurrence of the separator `"://"`: the
part before it and the part after it, or `none` when it does not occur. -/
def cutSep : List Nat → Option (List Nat × List Nat)
  | [] => none
  | c :: cs =>
    if sep.isPrefixOf (c :: cs) then some ([], (c :: cs).drop sep.length)
    else (cutSep cs).map (fun p => (c :: p.1, p.2))

/-- Modelled from the spec: `parseURL` (`accounts/url.go` is not among the
sources) splits its input at the separator `"://"`; the input is a URL when
that yields a non-empty scheme and a path in which the separator does not occur
again, and every other input is an error (`none`). -/
def parseURL (url : List Nat) : Option URL :=
  match cutSep url with
  | none => none
  | some (scheme, path) =>
    if scheme = [] then none
    else if (cutSep path).isSome then none
    else some ⟨scheme, path⟩

/-- Modelled from the spec: `URL.String` (`accounts/url.go` is not among the
sources) is scheme, separator and path joined, and the bare path when the
scheme is empty. -/
def URL.String (u : URL) : List Nat :=
  if u.Scheme ≠ [] then u.Scheme ++ sep ++ u.Path else u.Path

/-- The library function `strings.Compare`: -1, 0 or +1 as the first string is
byte-wise less than, equal to or greater than the second. -/
def stringsCompare : List Nat → List Nat → Int
  | [], [] => 0
  | [], _ :: _ => -1
  | _ :: _, [] => 1
  | x :: xs, y :: ys =>
    if x < y then -1 else if y < x then 1 else stringsCompare xs ys

/-- Modelled from the spec: `URL.Cmp` (`accounts/url.go` is not among the
sources) compares the schemes, and the paths when the schemes are equal. -/
def URL.Cmp (u url : URL) : Int :=
  if u.Scheme = url.Scheme then stringsCompare u.Path url.Path
  else stringsCompare u.Scheme url.Scheme

end accounts

/-! ## Error classification -/

namespace api

open httperror

theorem isTemporary_of_ne (info : Info) (err : GoError) (h : info.ChainCode ≠ "VOC06") :
    isTemporary info err = some (decide (info.ChainCode = "VOC00" ∨ info.ChainCode = "VOC01" ∨ info.ChainCode = "VOC61")) := by
  unfold isTemporary
  by_cases h0 : info.ChainCode = "VOC00"
  · simp [h0]
  · by_cases h1 : info.ChainCode = "VOC01"
    · simp [h1]
    · by_cases h2 : info.ChainCode = "VOC61"
      · simp [h2]
      · simp [h0, h1, h2, h]

theorem isTemporary_actions (info : Info) (err : GoError) (errs : List Response)
    (hc : info.ChainCode = "VOC06")
    (ha : mapIndex (errors.Data err) "actions" = Value.responses errs) :
    isTemporary info err = errs.foldlM actionStep true := by
  unfold isTemporary
  rw [hc]
  simp only [show ¬ ("VOC06" = "VOC00") by decide, show ¬ ("VOC06" = "VOC01") by decide,
    show ¬ ("VOC06" = "VOC61") by decide, if_false, if_true]
  split
  · rename_i errs2 h2
    rw [ha] at h2
    cases h2
    rfl
  · rename_i h2
    exact absurd ha (h2 errs)

theorem isTemporary_no_actions (info : Info) (err : GoError)
    (hc : info.ChainCode = "VOC06")
    (ha : ∀ errs, mapIndex (errors.Data err) "actions" ≠ Value.responses errs) :
    isTemporary info err = none := by
  unfold isTemporary
  rw [hc]
  simp only [show ¬ ("VOC06" = "VOC00") by decide, show ¬ ("VOC06" = "VOC01") by decide,
    show ¬ ("VOC06" = "VOC61") by decide, if_false, if_true]

theorem foldlM_actionStep_false (errs : List Response) :
    errs.foldlM actionStep false = some false := by
  induction errs with
  | nil => rfl
  | cons a rest ih => simp [List.foldlM, actionStep, ih]

theorem foldlM_actionStep_cons (a : Response) (rest : List Response) :
    (a :: rest).foldlM actionStep true =
      (isTemporary a.Info GoError.nil).bind (fun t => rest.foldlM actionStep t) := by
  simp [List.foldlM, actionStep]

theorem isTemporary_nil_VOC06 (info : Info) (hc : info.ChainCode = "VOC06") :
    isTemporary info GoError.nil = none :=
  isTemporary_no_actions info GoError.nil hc (by intro errs h; simp [errors.Data, mapIndex] at h)

theorem foldlM_actionStep_no_VOC06 (errs : List Response)
    (h : ∀ a ∈ errs, a.Info.ChainCode ≠ "VOC06") :
    errs.foldlM actionStep true =
      some (errs.all (fun a => isTemporary a.Info GoError.nil == some true)) := by
  induction errs with
  | nil => rfl
  | cons a rest ih =>
    have ha := isTemporary_of_ne a.Info GoError.nil (h a (List.mem_cons_self a rest))
    have hrest := ih (fun x hx => h x (List.mem_cons_of_mem a hx))
    rw [foldlM_actionStep_cons]
    by_cases hd : (a.Info.ChainCode = "VOC00" ∨ a.Info.ChainCode = "VOC01" ∨
        a.Info.ChainCode = "VOC61")
    · have ht : isTemporary a.Info GoError.nil = some true := by rw [ha]; simp [hd]
      simp [ht, hrest]
    · have hf : isTemporary a.Info GoError.nil = some false := by rw [ha]; simp [hd]
      simp [hf, foldlM_actionStep_false]

theorem chainCodes_nodup :
    ((validationErrors ++ vmErrors).map (fun k => (respErrInfo k).map Info.ChainCode)).Nodup := by
  decide

theorem chainCodes_present :
    ∀ k ∈ validationErrors ++ vmErrors, (respErrInfo k).isSome = true := by
  decide

theorem foldlM_actionStep_isSome (errs : List Response) :
    (errs.foldlM actionStep true).isSome = true ↔
      ∀ pre a post, errs = pre ++ a :: post → a.Info.ChainCode = "VOC06" →
        ∃ b ∈ pre, isTemporary b.Info GoError.nil = some false := by
  induction errs with
  | nil =>
    constructor
    · intro _ pre a post h
      simp at h
    · intro _
      rfl
  | cons x rest ih =>
    rw [foldlM_actionStep_cons]
    by_cases hx : x.Info.ChainCode = "VOC06"
    · rw [isTemporary_nil_VOC06 x.Info hx]
      constructor
      · intro h
        simp at h
      · intro h
        obtain ⟨b, hb, _⟩ := h [] x rest rfl hx
        simp at hb
    · have hv := isTemporary_of_ne x.Info GoError.nil hx
      by_cases hd : (x.Info.ChainCode = "VOC00" ∨ x.Info.ChainCode = "VOC01" ∨
          x.Info.ChainCode = "VOC61")
      · have ht : isTemporary x.Info GoError.nil = some true := by rw [hv]; simp [hd]
        rw [ht, Option.some_bind, ih]
        constructor
        · intro h pre a post he ha
          cases pre with
          | nil =>
            simp only [List.nil_append, List.cons.injEq] at he
            exact absurd (he.1 ▸ ha) hx
          | cons y pre2 =>
            simp only [List.cons_append, List.cons.injEq] at he
            obtain ⟨b, hb, hbf⟩ := h pre2 a post he.2 ha
            exact ⟨b, List.mem_cons_of_mem y hb, hbf⟩
        · intro h pre a post he ha
          obtain ⟨b, hb, hbf⟩ := h (x :: pre) a post (by rw [he]; rfl) ha
          rcases List.mem_cons.mp hb with hbx | hbp
          · rw [hbx, ht] at hbf
            simp at hbf
          · exact ⟨b, hbp, hbf⟩
      · have hf : isTemporary x.Info GoError.nil = some false := by rw [hv]; simp [hd]
        rw [hf, Option.some_bind, foldlM_actionStep_false]
        constructor
        · intro _ pre a post he ha
          cases pre with
          | nil =>
            simp only [List.nil_append, List.cons.injEq] at he
            exact absurd (he.1 ▸ ha) hx
          | cons y pre2 =>
            simp only [List.cons_append, List.cons.injEq] at he
            exact ⟨x, by rw [he.1]; exact List.mem_cons_self _ _, hf⟩
        · intro _
          rfl

/-- C1: the 19 validation errors and the 16 VM errors of `respErrFormatter` all
have an entry, and any two different ones among these 35 keys are mapped to
different chain codes. -/
theorem respErrFormatter_chainCodes_distinct (k₁ k₂ : ErrKey)
    (h₁ : k₁ ∈ validationErrors ++ vmErrors) (h₂ : k₂ ∈ validationErrors ++ vmErrors)
    (hne : k₁ ≠ k₂) :
    validationErrors.length = 19 ∧ vmErrors.length = 16 ∧
    ∃ i₁ i₂, respErrInfo k₁ = some i₁ ∧ respErrInfo k₂ = some i₂ ∧
      i₁.ChainCode ≠ i₂.ChainCode := by
  refine ⟨rfl, rfl, ?_⟩
  obtain ⟨i₁, e₁⟩ := Option.isSome_iff_exists.mp (chainCodes_present k₁ h₁)
  obtain ⟨i₂, e₂⟩ := Option.isSome_iff_exists.mp (chainCodes_present k₂ h₂)
  refine ⟨i₁, i₂, e₁, e₂, ?_⟩
  intro hc
  apply hne
  apply List.inj_on_of_nodup_map chainCodes_nodup h₁ h₂
  simp [e₁, e₂, hc]

theorem respErrFormatter_chainCodes_distinct_witness :
    ErrKey.validation_ErrGasCalculate ∈ validationErrors ++ vmErrors ∧
    ErrKey.vm_ErrAltStackUnderflow ∈ validationErrors ++ vmErrors ∧
    ErrKey.validation_ErrGasCalculate ≠ ErrKey.vm_ErrAltStackUnderflow ∧
    (validationErrors.length = 19 ∧ vmErrors.length = 16 ∧
      ∃ i₁ i₂, respErrInfo ErrKey.validation_ErrGasCalculate = some i₁ ∧
        respErrInfo ErrKey.vm_ErrAltStackUnderflow = some i₂ ∧
        i₁.ChainCode ≠ i₂.ChainCode) :=
  ⟨by decide, by decide, by decide,
    respErrFormatter_chainCodes_distinct ErrKey.validation_ErrGasCalculate
      ErrKey.vm_ErrAltStackUnderflow (by decide) (by decide) (by decide)⟩

/-- C2: for an info whose ChainCode is not "VOC06", `isTemporary` returns true
exactly when the ChainCode is "VOC00", "VOC01" or "VOC61" and false otherwise;
the result depends neither on err nor on the HTTP status or message. -/
theorem isTemporary_other_codes (info : Info) (err : GoError)
    (h : info.ChainCode ≠ "VOC06") :
    isTemporary info err = some (decide (info.ChainCode = "VOC00" ∨
      info.ChainCode = "VOC01" ∨ info.ChainCode = "VOC61")) ∧
    ∀ (status : Int) (msg : String) (err2 : GoError),
      isTemporary ⟨status, info.ChainCode, msg⟩ err2 = isTemporary info err := by
  refine ⟨isTemporary_of_ne info err h, ?_⟩
  intro status msg err2
  rw [isTemporary_of_ne info err h, isTemporary_of_ne ⟨status, info.ChainCode, msg⟩ err2 h]

theorem isTemporary_other_codes_witness :
    (⟨400, "VOC61", "reserved"⟩ : Info).ChainCode ≠ "VOC06" ∧
    (isTemporary ⟨400, "VOC61", "reserved"⟩ GoError.plain =
        some (decide ((⟨400, "VOC61", "reserved"⟩ : Info).ChainCode = "VOC00" ∨
          (⟨400, "VOC61", "reserved"⟩ : Info).ChainCode = "VOC01" ∨
          (⟨400, "VOC61", "reserved"⟩ : Info).ChainCode = "VOC61")) ∧
      ∀ (status : Int) (msg : String) (err2 : GoError),
        isTemporary ⟨status, (⟨400, "VOC61", "reserved"⟩ : Info).ChainCode, msg⟩ err2 =
          isTemporary ⟨400, "VOC61", "reserved"⟩ GoError.plain) :=
  ⟨by decide, isTemporary_other_codes ⟨400, "VOC61", "reserved"⟩ GoError.plain (by decide)⟩

/-- C3: for an info with ChainCode "VOC06" and an err whose data holds under
"actions" a list L of responses none of which has ChainCode "VOC06",
`isTemporary` returns a boolean that is true exactly when
`isTemporary a.Info nil` is true for every a in L: true for the empty list,
false as soon as one action error is not temporary. -/
theorem isTemporary_action_errors (info : Info) (err : GoError) (L : List Response)
    (hc : info.ChainCode = "VOC06")
    (ha : mapIndex (errors.Data err) "actions" = Value.responses L)
    (hL : ∀ a ∈ L, a.Info.ChainCode ≠ "VOC06") :
    (∃ b, isTemporary info err = some b ∧
      (b = true ↔ ∀ a ∈ L, isTemporary a.Info GoError.nil = some true)) ∧
    (L = [] → isTemporary info err = some true) ∧
    ((∃ a ∈ L, isTemporary a.Info GoError.nil = some false) →
      isTemporary info err = some false) := by
  have hv : isTemporary info err =
      some (L.all (fun a => isTemporary a.Info GoError.nil == some true)) := by
    rw [isTemporary_actions info err L hc ha, foldlM_actionStep_no_VOC06 L hL]
  refine ⟨⟨_, hv, ?_⟩, ?_, ?_⟩
  · simp [List.all_eq_true]
  · intro hnil
    rw [hv, hnil]
    rfl
  · rintro ⟨a, haL, haf⟩
    rw [hv]
    congr 1
    rw [Bool.eq_false_iff]
    intro hall
    have := List.all_eq_true.mp hall a haL
    simp [haf] at this

theorem isTemporary_action_errors_witness :
    (⟨400, "VOC06", "actions"⟩ : Info).ChainCode = "VOC06" ∧
    mapIndex (errors.Data (GoError.withData [("actions", Value.responses
      [⟨⟨400, "VOC61", "reserved"⟩⟩, ⟨⟨400, "VOC04", "Invalid action type"⟩⟩])])) "actions" =
      Value.responses [⟨⟨400, "VOC61", "reserved"⟩⟩, ⟨⟨400, "VOC04", "Invalid action type"⟩⟩] ∧
    (∀ a ∈ [(⟨⟨400, "VOC61", "reserved"⟩⟩ : Response), ⟨⟨400, "VOC04", "Invalid action type"⟩⟩],
      a.Info.ChainCode ≠ "VOC06") ∧
    isTemporary ⟨400, "VOC06", "actions"⟩ (GoError.withData [("actions", Value.responses
      [⟨⟨400, "VOC61", "reserved"⟩⟩, ⟨⟨400, "VOC04", "Invalid action type"⟩⟩])]) = some false :=
  ⟨rfl, rfl, by decide,
    (isTemporary_action_errors ⟨400, "VOC06", "actions"⟩
      (GoError.withData [("actions", Value.responses
        [⟨⟨400, "VOC61", "reserved"⟩⟩, ⟨⟨400, "VOC04", "Invalid action type"⟩⟩])])
      [⟨⟨400, "VOC61", "reserved"⟩⟩, ⟨⟨400, "VOC04", "Invalid action type"⟩⟩]
      rfl rfl (by decide)).2.2
      ⟨⟨⟨400, "VOC04", "Invalid action type"⟩⟩, by decide,
        isTemporary_of_ne _ _ (by decide)⟩⟩

/-- C4: evaluation of `isTemporary` on the two general failures in the form
`errorFormatter` emits them: for `errorFormatter.Default` (chain code "VOC000")
and for the info of `context.DeadlineExceeded` (chain code "VOC001") it
returns false for every err, since the switch tests "VOC00" and "VOC01". -/
theorem isTemporary_errorFormatter_general (err : GoError) :
    isTemporary errorFormatter.Default err = some false ∧
    errorFormatter.Errors.lookup ErrKey.context_DeadlineExceeded =
      some ⟨408, "VOC001", "Request timed out"⟩ ∧
    isTemporary ⟨408, "VOC001", "Request timed out"⟩ err = some false := by
  refine ⟨?_, rfl, ?_⟩
  · rw [isTemporary_of_ne _ _ (by decide)]
    rfl
  · rw [isTemporary_of_ne _ _ (by decide)]
    rfl

/-- C8, counterexample: `isTemporary` is not total.  For an info with ChainCode
"VOC06" the type assertion fails on a nil err, on an err without data, on an
err whose "actions" entry has another type, and on an action list that holds a
response with ChainCode "VOC06". -/
theorem isTemporary_not_total :
    isTemporary ⟨400, "VOC06", "Invalid action construction"⟩ GoError.nil = none ∧
    isTemporary ⟨400, "VOC06", "Invalid action construction"⟩ GoError.plain = none ∧
    isTemporary ⟨400, "VOC06", "Invalid action construction"⟩
      (GoError.withData [("actions", Value.other)]) = none ∧
    isTemporary ⟨400, "VOC06", "Invalid action construction"⟩
      (GoError.withData [("actions", Value.responses
        [⟨⟨400, "VOC06", "Invalid action construction"⟩⟩])]) = none := by
  refine ⟨?_, ?_, ?_, ?_⟩
  · exact isTemporary_no_actions _ _ rfl (by intro errs h; simp [errors.Data, mapIndex] at h)
  · exact isTemporary_no_actions _ _ rfl (by intro errs h; simp [errors.Data, mapIndex] at h)
  · exact isTemporary_no_actions _ _ rfl (by intro errs h; simp [errors.Data, mapIndex] at h)
  · rw [isTemporary_actions ⟨400, "VOC06", "Invalid action construction"⟩
        (GoError.withData [("actions", Value.responses
          [⟨⟨400, "VOC06", "Invalid action construction"⟩⟩])])
        [⟨⟨400, "VOC06", "Invalid action construction"⟩⟩] rfl rfl,
      foldlM_actionStep_cons, isTemporary_nil_VOC06 _ rfl]
    rfl

/-- C8, amended: `isTemporary` returns a boolean exactly when the ChainCode is
not "VOC06", or the err's data holds under "actions" a list of responses in
which every response with ChainCode "VOC06" comes after a response that is not
temporary (so that the loop never evaluates it); in every other case the type
assertion fails. -/
theorem isTemporary_isSome_iff (info : Info) (err : GoError) :
    (isTemporary info err).isSome = true ↔
      (info.ChainCode ≠ "VOC06" ∨
        ∃ L, mapIndex (errors.Data err) "actions" = Value.responses L ∧
          ∀ pre a post, L = pre ++ a :: post → a.Info.ChainCode = "VOC06" →
            ∃ b ∈ pre, isTemporary b.Info GoError.nil = some false) := by
  by_cases hc : info.ChainCode = "VOC06"
  · by_cases hex : ∃ L, mapIndex (errors.Data err) "actions" = Value.responses L
    · obtain ⟨L, hL⟩ := hex
      rw [isTemporary_actions info err L hc hL, foldlM_actionStep_isSome]
      constructor
      · intro h
        exact Or.inr ⟨L, hL, h⟩
      · rintro (h | ⟨L2, hL2, h⟩)
        · exact absurd hc h
        · rw [hL] at hL2
          cases hL2
          exact h
    · have hno : ∀ errs, mapIndex (errors.Data err) "actions" ≠ Value.responses errs :=
        fun errs h => hex ⟨errs, h⟩
      rw [isTemporary_no_actions info err hc hno]
      constructor
      · intro h
        simp at h
      · rintro (h | ⟨L2, hL2, _⟩)
        · exact absurd hc h
        · exact absurd hL2 (hno L2)
  · rw [isTemporary_of_ne info err hc]
    simp [hc]

end api

/-! ## Account URLs -/

namespace accounts

theorem cutSep_sound : ∀ (s a b : List Nat), cutSep s = some (a, b) → s = a ++ sep ++ b
  | [], a, b, h => by simp [cutSep] at h
  | c :: cs, a, b, h => by
    unfold cutSep at h
    by_cases hp : sep.isPrefixOf (c :: cs) = true
    · rw [if_pos hp] at h
      obtain ⟨t, ht⟩ := List.isPrefixOf_iff_prefix.mp hp
      simp only [Option.some.injEq, Prod.mk.injEq] at h
      obtain ⟨ha, hb⟩ := h
      subst ha
      rw [← ht] at hb
      rw [List.drop_left] at hb
      subst hb
      simpa using ht.symm
    · rw [if_neg hp] at h
      cases hc : cutSep cs with
      | none => simp [hc] at h
      | some p =>
        obtain ⟨a', b'⟩ := p
        simp only [hc, Option.map_some', Option.some.injEq, Prod.mk.injEq] at h
        obtain ⟨ha, hb⟩ := h
        subst ha
        subst hb
        have := cutSep_sound cs a' b' hc
        simp [this]

theorem cutSep_eq_none (s : List Nat) (h : ¬ sep <:+: s) : cutSep s = none := by
  cases hc : cutSep s with
  | none => rfl
  | some p =>
    obtain ⟨a, b⟩ := p
    exact absurd ⟨a, b, (cutSep_sound s a b hc).symm⟩ h

theorem not_infix_tail (c : Nat) (a : List Nat) (h : ¬ sep <:+: c :: a) : ¬ sep <:+: a :=
  fun hi => h (List.infix_cons hi)

theorem cutSep_append : ∀ (a b : List Nat), ¬ sep <:+: a → cutSep (a ++ sep ++ b) = some (a, b)
  | [], b, _ => by simp [cutSep, sep, List.isPrefixOf]
  | c :: a, b, h => by
    have ih := cutSep_append a b (not_infix_tail c a h)
    have hp : sep.isPrefixOf (c :: (a ++ sep ++ b)) = false := by
      match a, h with
      | [], _ => simp [sep, List.isPrefixOf]
      | [x], _ => simp [sep, List.isPrefixOf]
      | x :: y :: t, h =>
        by_contra hne
        apply h
        simp only [sep, List.isPrefixOf, List.cons_append, Bool.not_eq_false, Bool.and_eq_true,
          beq_iff_eq, Bool.and_true] at hne
        obtain ⟨h1, h2, h3⟩ := hne
        subst h1
        subst h2
        subst h3
        exact ⟨[], t, rfl⟩
    show cutSep (c :: (a ++ sep ++ b)) = some (c :: a, b)
    unfold cutSep
    rw [hp, ih]
    rfl

theorem parseURL_append (scheme path : List Nat) (hne : scheme ≠ [])
    (hs : ¬ sep <:+: scheme) (hp : ¬ sep <:+: path) :
    parseURL (scheme ++ sep ++ path) = some ⟨scheme, path⟩ := by
  unfold parseURL
  rw [cutSep_append scheme path hs]
  simp [hne, cutSep_eq_none path hp]

theorem parseURL_scheme_ne_nil (s : List Nat) (u : URL) (h : parseURL s = some u) :
    u.Scheme ≠ [] := by
  unfold parseURL at h
  cases hc : cutSep s with
  | none => simp [hc] at h
  | some p =>
    obtain ⟨a, b⟩ := p
    simp only [hc] at h
    by_cases ha : a = []
    · simp [ha] at h
    · by_cases hb : (cutSep b).isSome = true
      · simp [ha, hb] at h
      · simp only [ha, hb, if_false, Bool.false_eq_true, Option.some.injEq] at h
        subst h
        exact ha

theorem stringsCompare_lt : ∀ (a b : List Nat), a < b → stringsCompare a b = -1
  | [], [], h => absurd h (by decide)
  | [], _ :: _, _ => rfl
  | _ :: _, [], h => nomatch h
  | x :: xs, y :: ys, h => by
    unfold stringsCompare
    cases h with
    | rel hxy => simp [hxy]
    | cons ht => simp [stringsCompare_lt xs ys ht]

theorem stringsCompare_gt : ∀ (a b : List Nat), b < a → stringsCompare a b = 1
  | [], [], h => absurd h (by decide)
  | [], _ :: _, h => nomatch h
  | _ :: _, [], _ => rfl
  | x :: xs, y :: ys, h => by
    unfold stringsCompare
    cases h with
    | rel hyx => simp [hyx, Nat.lt_asymm hyx]
    | cons ht => simp [stringsCompare_gt xs ys ht]

theorem stringsCompare_self : ∀ (a : List Nat), stringsCompare a a = 0
  | [] => rfl
  | x :: xs => by
    unfold stringsCompare
    simp [stringsCompare_self xs]

theorem stringsCompare_eq_zero : ∀ (a b : List Nat), stringsCompare a b = 0 → a = b
  | [], [], _ => rfl
  | [], _ :: _, h => by simp [stringsCompare] at h
  | _ :: _, [], h => by simp [stringsCompare] at h
  | x :: xs, y :: ys, h => by
    unfold stringsCompare at h
    by_cases h1 : x < y
    · simp [h1] at h
    · by_cases h2 : y < x
      · simp [h1, h2] at h
      · simp only [h1, h2, if_false] at h
        have hxy : x = y := by omega
        rw [hxy, stringsCompare_eq_zero xs ys h]

theorem stringsCompare_neg : ∀ (a b : List Nat), stringsCompare a b = - stringsCompare b a
  | [], [] => rfl
  | [], _ :: _ => rfl
  | _ :: _, [] => rfl
  | x :: xs, y :: ys => by
    unfold stringsCompare
    by_cases h1 : x < y
    · simp [h1, Nat.lt_asymm h1]
    · by_cases h2 : y < x
      · simp [h1, h2]
      · simp [h1, h2, stringsCompare_neg xs ys]

theorem stringsCompare_lex (a b : List Nat) :
    stringsCompare a b = if a < b then -1 else if b < a then 1 else 0 := by
  by_cases h1 : a < b
  · rw [if_pos h1, stringsCompare_lt a b h1]
  · by_cases h2 : b < a
    · rw [if_neg h1, if_pos h2, stringsCompare_gt a b h2]
    · rw [if_neg h1, if_neg h2]
      have hab : a = b := le_antisymm (not_lt.mp h2) (not_lt.mp h1)
      rw [hab, stringsCompare_self]

/-- C5: `parseURL` and `URL.String` are inverse on well-formed URLs: for a
non-empty scheme and a path, neither containing "://", `parseURL` of
scheme ++ "://" ++ path is the URL with that scheme and path, the `String` of
that URL is scheme ++ "://" ++ path, and so `parseURL (u.String) = u`. -/
theorem parseURL_String_inverse (scheme path : List Nat) (hne : scheme ≠ [])
    (hs : ¬ sep <:+: scheme) (hp : ¬ sep <:+: path) :
    parseURL (scheme ++ sep ++ path) = some ⟨scheme, path⟩ ∧
    (URL.mk scheme path).String = scheme ++ sep ++ path ∧
    parseURL (URL.mk scheme path).String = some ⟨scheme, path⟩ := by
  have hstr : (URL.mk scheme path).String = scheme ++ sep ++ path := by
    simp [URL.String, hne]
  refine ⟨parseURL_append scheme path hne hs hp, hstr, ?_⟩
  rw [hstr]
  exact parseURL_append scheme path hne hs hp

theorem parseURL_String_inverse_witness :
    ascii "https" ≠ [] ∧ ¬ sep <:+: ascii "https" ∧ ¬ sep <:+: ascii "voc-core.org" ∧
    (parseURL (ascii "https" ++ sep ++ ascii "voc-core.org") =
        some ⟨ascii "https", ascii "voc-core.org"⟩ ∧
      (URL.mk (ascii "https") (ascii "voc-core.org")).String =
        ascii "https" ++ sep ++ ascii "voc-core.org" ∧
      parseURL (URL.mk (ascii "https") (ascii "voc-core.org")).String =
        some ⟨ascii "https", ascii "voc-core.org"⟩) ∧
    ascii "https" ++ sep ++ ascii "voc-core.org" = ascii "https://voc-core.org" :=
  ⟨by decide, by decide, by decide,
    parseURL_String_inverse (ascii "https") (ascii "voc-core.org")
      (by decide) (by decide) (by decide),
    by decide⟩

/-- C6: `parseURL` rejects input without a scheme: a string that does not
contain "://" is an error; the `String` of a URL with empty Scheme is its bare
Path, which is rejected when it holds no separator and in no case parses back
to that URL. -/
theorem parseURL_rejects_missing_scheme (s : List Nat) (u : URL)
    (hs : ¬ sep <:+: s) (hu : u.Scheme = []) :
    parseURL s = none ∧ u.String = u.Path ∧
    (¬ sep <:+: u.Path → parseURL u.String = none) ∧
    parseURL u.String ≠ some u := by
  have hnone : ∀ t, ¬ sep <:+: t → parseURL t = none := by
    intro t ht
    simp [parseURL, cutSep_eq_none t ht]
  have hstr : u.String = u.Path := by
    simp [URL.String, hu]
  refine ⟨hnone s hs, hstr, ?_, ?_⟩
  · intro hp
    rw [hstr]
    exact hnone u.Path hp
  · intro hback
    exact parseURL_scheme_ne_nil u.String u hback hu

theorem parseURL_rejects_missing_scheme_witness :
    ¬ sep <:+: ascii "voc-core.org" ∧ (URL.mk [] (ascii "voc-core.org")).Scheme = [] ∧
    (parseURL (ascii "voc-core.org") = none ∧
      (URL.mk [] (ascii "voc-core.org")).String = (URL.mk [] (ascii "voc-core.org")).Path ∧
      (¬ sep <:+: (URL.mk [] (ascii "voc-core.org")).Path →
        parseURL (URL.mk [] (ascii "voc-core.org")).String = none) ∧
      parseURL (URL.mk [] (ascii "voc-core.org")).String ≠
        some (URL.mk [] (ascii "voc-core.org"))) :=
  ⟨by decide, rfl,
    parseURL_rejects_missing_scheme (ascii "voc-core.org") (URL.mk [] (ascii "voc-core.org"))
      (by decide) rfl⟩

/-- C7: `URL.Cmp` is the lexicographic order on (Scheme, Path): the result is
-1, 0 or +1 as the Scheme of a is byte-wise less than, equal to or greater than
that of b, ties decided by the same comparison of the Paths; it is 0 exactly
when a = b, and `a.Cmp b = - b.Cmp a`. -/
theorem URL_Cmp_lexicographic (a b : URL) :
    a.Cmp b = (if a.Scheme < b.Scheme then -1 else if b.Scheme < a.Scheme then 1
      else if a.Path < b.Path then -1 else if b.Path < a.Path then 1 else 0) ∧
    (a.Cmp b = 0 ↔ a = b) ∧
    a.Cmp b = - b.Cmp a := by
  obtain ⟨as, ap⟩ := a
  obtain ⟨bs, bp⟩ := b
  refine ⟨?_, ?_, ?_⟩
  · by_cases hs : as = bs
    · subst hs
      simp [URL.Cmp, stringsCompare_lex]
    · simp only [URL.Cmp, hs, if_false]
      rw [stringsCompare_lex]
      by_cases h1 : as < bs
      · simp [h1]
      · by_cases h2 : bs < as
        · simp [h1, h2]
        · exact absurd (le_antisymm (not_lt.mp h2) (not_lt.mp h1)) hs
  · by_cases hs : as = bs
    · subst hs
      simp only [URL.Cmp, if_true, URL.mk.injEq, true_and]
      exact ⟨stringsCompare_eq_zero ap bp, fun h => h ▸ stringsCompare_self ap⟩
    · simp only [URL.Cmp, hs, if_false, URL.mk.injEq, false_and, iff_false]
      intro h
      exact hs (stringsCompare_eq_zero as bs h)
  · by_cases hs : as = bs
    · subst hs
      simp only [URL.Cmp, if_true]
      exact stringsCompare_neg ap bp
    · have hs2 : ¬ bs = as := fun h => hs h.symm
      simp only [URL.Cmp, hs, hs2, if_false]
      exact stringsCompare_neg as bs

end accounts

end Vocchain
